import Mathlib

/-!
# Verification of the APT provisioner (packer-plugin-apt)

Shallow embedding of `src/provisioner/apt/config.go`.

The provisioner is a fixed sequence of local-filesystem probes, file
transfers and remote commands executed against an externally supplied
communicator.  We embed it as a pure function from an *environment oracle*
(`World`, recording the outcome the operating system / communicator gives
to each primitive operation of one run) to a result
(`Option String`, `none` = success, `some e` = the error returned to the
caller) paired with the ordered trace of observable operations (`Event`).

Every step function below mirrors one Go function of the source file;
`Provision` mirrors `Provisioner.Provision`.
-/

namespace Apt

/-- The typed configuration record (`Config` in `config.go`).  The embedded
`common.PackerConfig` and the interpolation context take no part in any
behaviour of this file and are omitted. -/
structure Config where
  packages : List String
  sources : List String
  keys : List String
  cacheDir : String
  deriving DecidableEq, Repr

/-- Result of one `os.Stat` call as the code distinguishes it:
`IsNotExist`, any other error, or success (with `IsDir`). -/
inductive StatRes where
  | notExist
  | statError (e : String)
  | ok (isDir : Bool)
  deriving DecidableEq, Repr

/-- Result of one `os.Open` / `File.Stat` call on a key file as the code
distinguishes it: `IsNotExist`, any other error, or success. -/
inductive FileRes where
  | notExist
  | fileError (e : String)
  | ok
  deriving DecidableEq, Repr

/-- One observable operation of a provisioning run. -/
inductive Event where
  | say (msg : String)
  | uiError (msg : String)
  | uploadDir (remotePath localPath : String)
  | uploadFile (remotePath localKey : String)
  | uploadContent (remotePath content : String)
  | runCmd (cmd : String)
  | tempDirCreate (dir : String)
  | downloadDir (remotePath localPath : String)
  | execMv (cmd : String)
  | removeAll (dir : String)
  deriving DecidableEq, Repr

/-- The environment oracle for one run: the outcome of every primitive
operation the provisioner can issue.  `Option String`: `none` = success,
`some e` = the error value `e`. -/
structure World where
  /-- `os.Stat(p.config.CacheDir)` inside `uploadHostPackageCache`. -/
  statCacheUpload : StatRes
  /-- `os.Stat(p.config.CacheDir)` inside `updateCache`. -/
  statCacheUpdate : StatRes
  /-- `comm.UploadDir("/var/cache/apt/archives", cacheDir, [])`. -/
  uploadDirRes : Option String
  /-- `os.Open(key)` per key path. -/
  openKey : String → FileRes
  /-- `f.Stat()` per key path. -/
  statKey : String → FileRes
  /-- `comm.Upload("/etc/apt/trusted.gpg.d/"+Base(key), f, &fi)` per key. -/
  uploadKeyRes : String → Option String
  /-- The DNS-wait remote command (`testRemoteDNS`). -/
  dnsRes : Option String
  /-- `comm.Upload("/etc/apt/sources.list.d/packer.list", r, nil)`. -/
  uploadListRes : Option String
  /-- The `/usr/bin/apt-get update` remote command. -/
  updateIndexRes : Option String
  /-- The `apt-get install` remote command. -/
  installRes : Option String
  /-- `ioutil.TempDir(os.TempDir(), "archives-")`: error, or the directory. -/
  tempDirRes : Except String String
  /-- `comm.DownloadDir("/var/cache/apt/archives", dir, [])`. -/
  downloadDirRes : Option String
  /-- `exec.Command("/bin/sh", "-c", "mv -n <dir>/*.deb <cacheDir>").Run()`. -/
  mvRes : Option String
  /-- The `/usr/bin/apt-get clean` remote command. -/
  cleanRes : Option String

/-- A step's outcome: the error the Go function returns (`none` = nil) and
the trace of operations it performed, in order. -/
abbrev StepOut := Option String × List Event

/-! ## Configuration component (`Config.Prepare`) -/

/-- The default cache directory `config.go` fills in. -/
def defaultCacheDir : String := "/var/cache/apt/archives"

/-- The default-fill `Config.Prepare` performs after a successful decode
(`config.go` lines 28-30). -/
def prepareFill (c : Config) : Config :=
  if c.cacheDir = "" then { c with cacheDir := defaultCacheDir } else c

/-- `Config.Prepare`.  The call to `config.Decode` (packer SDK, external to
this repository) is represented by the already-computed `decoded` argument:
`Except.error e` when decode/interpolation failed, `Except.ok c` with the
decoded record otherwise.  On decode error that error is returned verbatim;
otherwise the empty `cache_dir` is default-filled and no error is returned. -/
def Config.Prepare (decoded : Except String Config) : Except String Config :=
  match decoded with
  | .error e => .error e
  | .ok c => .ok (prepareFill c)

/-! ## Step functions of the orchestrator -/

/-- `Provisioner.uploadHostPackageCache` (`config.go` lines 135-152). -/
def uploadHostPackageCache (w : World) (cfg : Config) : StepOut :=
  match w.statCacheUpload with
  | .notExist =>
      (none, [Event.say "Host APT package cache not found, likely not running on a debian based host. Proceeding regardless"])
  | .statError e => (some e, [])
  | .ok isDir =>
      if isDir then
        match w.uploadDirRes with
        | some e => (some e, [Event.uploadDir "/var/cache/apt/archives" cfg.cacheDir])
        | none => (none, [Event.uploadDir "/var/cache/apt/archives" cfg.cacheDir])
      else (none, [])

/-- Go's `filepath.Base` for slash-separated paths: strip trailing
separators, keep everything after the last separator; `"."` for the empty
path, `"/"` when only separators remain. -/
def filepathBase (p : String) : String :=
  if p.data = [] then "."
  else
    let s := (p.data.reverse.dropWhile (fun c => c = '/')).reverse
    let b := (s.reverse.takeWhile (fun c => c ≠ '/')).reverse
    if b = [] then "/" else String.mk b

/-- The remote path a trust key is uploaded to:
`"/etc/apt/trusted.gpg.d/" + filepath.Base(key)`. -/
def trustPath (key : String) : String :=
  "/etc/apt/trusted.gpg.d/" ++ filepathBase key

/-- The informational message logged for a missing trust key. -/
def trustSkipMsg (key : String) : String :=
  "Package trust key '" ++ key ++ "' doesn't exist, likely not running on a debian based host. Skipping transfer."

/-- One iteration of the loop in `Provisioner.uploadHostPackageTrust`
(`config.go` lines 155-179): open the key file, stat it, upload it.
`IsNotExist` on open or stat logs and skips (`continue`); any other error
is returned; an upload failure logs and is returned. -/
def processKey (w : World) (key : String) : StepOut :=
  match w.openKey key with
  | .notExist => (none, [Event.say (trustSkipMsg key)])
  | .fileError e => (some e, [])
  | .ok =>
      match w.statKey key with
      | .notExist => (none, [Event.say (trustSkipMsg key)])
      | .fileError e => (some e, [])
      | .ok =>
          match w.uploadKeyRes key with
          | some e =>
              (some e, [Event.uploadFile (trustPath key) key,
                        Event.uiError ("Failed to upload APT key " ++ key)])
          | none => (none, [Event.uploadFile (trustPath key) key])

/-- `Provisioner.uploadHostPackageTrust` (`config.go` lines 154-181):
the loop over `p.config.Keys`, short-circuiting on the first returned
error. -/
def uploadHostPackageTrust (w : World) : List String → StepOut
  | [] => (none, [])
  | key :: rest =>
      match processKey w key with
      | (some e, evs) => (some e, evs)
      | (none, evs) =>
          match uploadHostPackageTrust w rest with
          | (r, evs2) => (r, evs ++ evs2)

/-- The DNS-wait command string (`config.go` lines 216-218). -/
def dnsCmdStr : String :=
  "/bin/sh -c 'for i in $(seq 100); do resolvectl query deb.debian.org >/dev/null && break; sleep 0.1; done; resolvectl query deb.debian.org'"

/-- `Provisioner.testRemoteDNS` (`config.go` lines 214-224). -/
def testRemoteDNS (w : World) : StepOut :=
  (w.dnsRes, [Event.runCmd dnsCmdStr])

/-- The remote path of the uploaded source list. -/
def packerListPath : String := "/etc/apt/sources.list.d/packer.list"

/-- `Provisioner.uploadPackageList` (`config.go` lines 183-190): upload
`strings.Join(sources, "\n") + "\n"` as `/etc/apt/sources.list.d/packer.list`. -/
def uploadPackageList (w : World) (cfg : Config) : StepOut :=
  (w.uploadListRes,
   [Event.uploadContent packerListPath (String.intercalate "\n" cfg.sources ++ "\n")])

/-- `Provisioner.updateRemotePackageIndex` (`config.go` lines 192-199). -/
def updateRemotePackageIndex (w : World) : StepOut :=
  (w.updateIndexRes, [Event.runCmd "/usr/bin/apt-get update"])

/-- The fixed prefix of the install command (`config.go` lines 203-206);
`fmt.Sprintf` appends `strings.Join(packages, " ")` to it. -/
def installPrefix : String :=
  "DEBIAN_FRONTEND=noninteractive /usr/bin/apt-get install -y --no-install-recommends "

/-- The full install command for a package list. -/
def installCmd (packages : List String) : String :=
  installPrefix ++ String.intercalate " " packages

/-- `Provisioner.installRemotePackages` (`config.go` lines 201-212). -/
def installRemotePackages (w : World) (cfg : Config) : StepOut :=
  (w.installRes, [Event.runCmd (installCmd cfg.packages)])

/-- The `mv -n` shell command of `updateCache` (`config.go` line 126). -/
def mvCmdStr (dir cacheDir : String) : String :=
  "mv -n " ++ dir ++ "/*.deb " ++ cacheDir

/-- `Provisioner.updateCache` (`config.go` lines 105-133): stat the local
cache dir (absent ⇒ log and skip), make a temp dir, download the remote
archives into it, `mv -n` the `.deb` files into the cache dir; the
`defer os.RemoveAll(dir)` runs on every exit path after the temp dir was
created. -/
def updateCache (w : World) (cfg : Config) : StepOut :=
  match w.statCacheUpdate with
  | .notExist =>
      (none, [Event.say "Skipping updating package cache, likely not running on a debian based host."])
  | .statError e => (some e, [])
  | .ok _ =>
      match w.tempDirRes with
      | .error e => (some e, [Event.uiError "APT cache update: failed to create tempdir"])
      | .ok dir =>
          match w.downloadDirRes with
          | some e =>
              (some e, [Event.tempDirCreate dir,
                        Event.downloadDir "/var/cache/apt/archives" dir,
                        Event.uiError ("APT cache update: failed to download archives to " ++ dir),
                        Event.removeAll dir])
          | none =>
              match w.mvRes with
              | some e =>
                  (some e, [Event.tempDirCreate dir,
                            Event.downloadDir "/var/cache/apt/archives" dir,
                            Event.execMv (mvCmdStr dir cfg.cacheDir),
                            Event.uiError ("APT cache update: mv: " ++ e),
                            Event.removeAll dir])
              | none =>
                  (none, [Event.tempDirCreate dir,
                          Event.downloadDir "/var/cache/apt/archives" dir,
                          Event.execMv (mvCmdStr dir cfg.cacheDir),
                          Event.removeAll dir])

/-- `Provisioner.cleanRemotePackages` (`config.go` lines 226-232). -/
def cleanRemotePackages (w : World) : StepOut :=
  (w.cleanRes, [Event.runCmd "/usr/bin/apt-get clean"])

/-! ## The orchestrator (`Provisioner.Provision`) -/

/-- Steps 6-8 of `Provision` (`config.go` lines 88-102), shared by the two
paths of the `len(Sources) != 0` conditional.  `acc` is the trace produced
so far. -/
def provisionInstallOnward (w : World) (cfg : Config) (acc : List Event) : StepOut :=
  match installRemotePackages w cfg with
  | (some e, evs) => (some e, acc ++ evs ++ [Event.uiError "apt-get install failed."])
  | (none, evs6) =>
      match updateCache w cfg with
      | (some e, evs) => (some e, acc ++ evs6 ++ evs)
      | (none, evs7) =>
          match cleanRemotePackages w with
          | (some e, evs) =>
              (some e, acc ++ evs6 ++ evs7 ++ evs ++ [Event.uiError "apt-get clean failed, ignoring"])
          | (none, evs8) => (none, acc ++ evs6 ++ evs7 ++ evs8)

/-- `Provisioner.Provision` (`config.go` lines 60-103): the fixed step
sequence, short-circuiting on the first error; steps 4 and 5 only when
`Sources` is non-empty.  Note that the `apt-get clean` failure branch at
lines 97-100 logs "apt-get clean failed, ignoring" and then still
`return err`s. -/
def Provision (w : World) (cfg : Config) : StepOut :=
  let ev0 : List Event := [Event.say "Provisioning with APT..."]
  match uploadHostPackageCache w cfg with
  | (some e, evs) =>
      (some e, ev0 ++ evs ++ [Event.uiError ("Failed to upload APT cache from " ++ cfg.cacheDir)])
  | (none, evs1) =>
      match uploadHostPackageTrust w cfg.keys with
      | (some e, evs) => (some e, ev0 ++ evs1 ++ evs)
      | (none, evs2) =>
          match testRemoteDNS w with
          | (some e, evs) =>
              (some e, ev0 ++ evs1 ++ evs2 ++ evs ++ [Event.uiError "Failed waiting for domain name resolution"])
          | (none, evs3) =>
              if cfg.sources.isEmpty then
                provisionInstallOnward w cfg (ev0 ++ evs1 ++ evs2 ++ evs3)
              else
                match uploadPackageList w cfg with
                | (some e, evs) =>
                    (some e, ev0 ++ evs1 ++ evs2 ++ evs3 ++ evs ++ [Event.uiError "Failed to upload APT package list"])
                | (none, evs4) =>
                    match updateRemotePackageIndex w with
                    | (some e, evs) =>
                        (some e, ev0 ++ evs1 ++ evs2 ++ evs3 ++ evs4 ++ evs ++ [Event.uiError "apt-get update failed"])
                    | (none, evs5) =>
                        provisionInstallOnward w cfg (ev0 ++ evs1 ++ evs2 ++ evs3 ++ evs4 ++ evs5)

/-! ## Step attribution

`opStep` assigns each *operation* event (upload, download, remote command,
move) the index of the step of `Provision` that can issue it; log events
(`say`, `uiError`) are unattributed.  `stepResult` reads off the error a
given step of one run would return, in the source's fixed order. -/

/-- The step of `Provision` an operation event belongs to (`none` for pure
log messages). -/
def opStep : Event → Option Nat
  | .say _ => none
  | .uiError _ => none
  | .uploadDir _ _ => some 1
  | .uploadFile _ _ => some 2
  | .uploadContent _ _ => some 4
  | .runCmd c =>
      if c = dnsCmdStr then some 3
      else if c = "/usr/bin/apt-get update" then some 5
      else if c = "/usr/bin/apt-get clean" then some 8
      else some 6
  | .tempDirCreate _ => some 7
  | .downloadDir _ _ => some 7
  | .execMv _ => some 7
  | .removeAll _ => some 7

/-- The error step `i` of `Provision` returns in the run described by `w`
(`none` both for success and for a step that is skipped). -/
def stepResult (w : World) (cfg : Config) (i : Nat) : Option String :=
  if i = 1 then (uploadHostPackageCache w cfg).1
  else if i = 2 then (uploadHostPackageTrust w cfg.keys).1
  else if i = 3 then w.dnsRes
  else if i = 4 then (if cfg.sources.isEmpty then none else w.uploadListRes)
  else if i = 5 then (if cfg.sources.isEmpty then none else w.updateIndexRes)
  else if i = 6 then w.installRes
  else if i = 7 then (updateCache w cfg).1
  else if i = 8 then w.cleanRes
  else none

/-! ### The four remote commands are pairwise distinct

The install command varies with `packages`, so its inequality to the three
fixed commands is proved from its first character. -/

theorem installCmd_head (s : String) :
    (installPrefix ++ s).data.head? = some 'D' := by
  rw [String.data_append]; rfl

theorem installCmd_ne_dns (s : String) : installPrefix ++ s ≠ dnsCmdStr := by
  intro h
  have h2 : (installPrefix ++ s).data.head? = dnsCmdStr.data.head? := by rw [h]
  rw [installCmd_head] at h2
  exact absurd h2 (by decide)

theorem installCmd_ne_update (s : String) :
    installPrefix ++ s ≠ "/usr/bin/apt-get update" := by
  intro h
  have h2 : (installPrefix ++ s).data.head? =
      ("/usr/bin/apt-get update" : String).data.head? := by rw [h]
  rw [installCmd_head] at h2
  exact absurd h2 (by decide)

theorem installCmd_ne_clean (s : String) :
    installPrefix ++ s ≠ "/usr/bin/apt-get clean" := by
  intro h
  have h2 : (installPrefix ++ s).data.head? =
      ("/usr/bin/apt-get clean" : String).data.head? := by rw [h]
  rw [installCmd_head] at h2
  exact absurd h2 (by decide)

theorem opStep_installCmd (packages : List String) :
    opStep (Event.runCmd (installCmd packages)) = some 6 := by
  simp only [opStep, installCmd]
  rw [if_neg (installCmd_ne_dns _), if_neg (installCmd_ne_update _),
      if_neg (installCmd_ne_clean _)]

/-! ### Which operations each step can emit -/

theorem opStep_cache (w : World) (cfg : Config) :
    ∀ ev ∈ (uploadHostPackageCache w cfg).2, ∀ k, opStep ev = some k → k = 1 := by
  intro ev hev k hk
  cases hstat : w.statCacheUpload with
  | notExist =>
      simp [uploadHostPackageCache, hstat] at hev
      subst hev; simp [opStep] at hk
  | statError e => simp [uploadHostPackageCache, hstat] at hev
  | ok isDir =>
      cases isDir with
      | false => simp [uploadHostPackageCache, hstat] at hev
      | true =>
          cases hup : w.uploadDirRes with
          | none =>
              simp [uploadHostPackageCache, hstat, hup] at hev
              subst hev; simp [opStep] at hk; omega
          | some e =>
              simp [uploadHostPackageCache, hstat, hup] at hev
              subst hev; simp [opStep] at hk; omega

theorem opStep_processKey (w : World) (key : String) :
    ∀ ev ∈ (processKey w key).2, ∀ k, opStep ev = some k → k = 2 := by
  intro ev hev k hk
  cases ho : w.openKey key with
  | notExist =>
      simp [processKey, ho] at hev; subst hev; simp [opStep] at hk
  | fileError e => simp [processKey, ho] at hev
  | ok =>
      cases hs : w.statKey key with
      | notExist =>
          simp [processKey, ho, hs] at hev; subst hev; simp [opStep] at hk
      | fileError e => simp [processKey, ho, hs] at hev
      | ok =>
          cases hu : w.uploadKeyRes key with
          | none =>
              simp [processKey, ho, hs, hu] at hev
              subst hev; simp [opStep] at hk; omega
          | some e =>
              simp [processKey, ho, hs, hu] at hev
              rcases hev with hev | hev <;> subst hev <;> simp [opStep] at hk
              omega

theorem opStep_trust (w : World) (keys : List String) :
    ∀ ev ∈ (uploadHostPackageTrust w keys).2, ∀ k, opStep ev = some k → k = 2 := by
  induction keys with
  | nil => intro ev hev; simp [uploadHostPackageTrust] at hev
  | cons key rest ih =>
      intro ev hev k hk
      rcases hpk : processKey w key with ⟨r, evs⟩
      cases r with
      | some e =>
          rw [uploadHostPackageTrust, hpk] at hev
          exact opStep_processKey w key ev (by rw [hpk]; exact hev) k hk
      | none =>
          rcases hrest : uploadHostPackageTrust w rest with ⟨r2, evs2⟩
          rw [uploadHostPackageTrust, hpk, hrest] at hev
          simp only [List.mem_append] at hev
          rcases hev with hev | hev
          · exact opStep_processKey w key ev (by rw [hpk]; exact hev) k hk
          · exact ih ev (by rw [hrest]; exact hev) k hk

theorem opStep_updateCache (w : World) (cfg : Config) :
    ∀ ev ∈ (updateCache w cfg).2, ∀ k, opStep ev = some k → k = 7 := by
  intro ev hev k hk
  cases hstat : w.statCacheUpdate with
  | notExist =>
      simp [updateCache, hstat] at hev; subst hev; simp [opStep] at hk
  | statError e => simp [updateCache, hstat] at hev
  | ok isDir =>
      cases htd : w.tempDirRes with
      | error e =>
          simp [updateCache, hstat, htd] at hev; subst hev; simp [opStep] at hk
      | ok dir =>
          cases hdl : w.downloadDirRes with
          | some e =>
              simp [updateCache, hstat, htd, hdl] at hev
              rcases hev with hev | hev | hev | hev <;> subst hev <;>
                simp [opStep] at hk <;> omega
          | none =>
              cases hmv : w.mvRes with
              | some e =>
                  simp [updateCache, hstat, htd, hdl, hmv] at hev
                  rcases hev with hev | hev | hev | hev | hev <;> subst hev <;>
                    simp [opStep] at hk <;> omega
              | none =>
                  simp [updateCache, hstat, htd, hdl, hmv] at hev
                  rcases hev with hev | hev | hev | hev <;> subst hev <;>
                    simp [opStep] at hk <;> omega

/-! ## Concrete runs used as witnesses -/

/-- A run in which every primitive operation succeeds; the local cache
directory is absent (the common non-Debian host). -/
def allOkWorld : World where
  statCacheUpload := .notExist
  statCacheUpdate := .notExist
  uploadDirRes := none
  openKey := fun _ => .ok
  statKey := fun _ => .ok
  uploadKeyRes := fun _ => none
  dnsRes := none
  uploadListRes := none
  updateIndexRes := none
  installRes := none
  tempDirRes := .ok "/tmp/archives-123456"
  downloadDirRes := none
  mvRes := none
  cleanRes := none

/-- The spec's scenario configuration: `packages=["curl"]`, no sources, no
keys, the default cache dir. -/
def cfgA : Config :=
  { packages := ["curl"], sources := [], keys := [], cacheDir := "/var/cache/apt/archives" }

/-- A configuration with one source line and one key. -/
def cfgB : Config :=
  { packages := ["curl"],
    sources := ["deb http://deb.debian.org/debian bullseye main"],
    keys := ["/tmp/key.gpg"],
    cacheDir := "/var/cache/apt/archives" }

/-! ## C1 — the final `apt-get clean` failure is returned, not suppressed

`config.go` lines 97-100 log "apt-get clean failed, ignoring" and then
`return err`: a run in which every step succeeds except the final cleanup
makes `Provision` return that error to the caller, contradicting both the
message's own wording and the documented non-fatality of the cleanup
step. -/

/-- The C1 run: everything succeeds except the final `apt-get clean`. -/
def wCleanFail : World := { allOkWorld with cleanRes := some "Process exited with status 100" }

/-- C1: in the run where only the final `apt-get clean` fails, `Provision`
logs `apt-get clean failed, ignoring` *and still returns the cleanup
error* — the caller observes a failure, not the success the spec
promises. -/
theorem C1_clean_failure_returned :
    (Provision wCleanFail cfgA).1 = some "Process exited with status 100" ∧
    Event.uiError "apt-get clean failed, ignoring" ∈ (Provision wCleanFail cfgA).2 := by
  constructor
  · rfl
  · decide

/-! ## C3 — `cache_dir` normalization -/

/-- C3: after a successful decode, `Config.Prepare` returns no error and
the `cache_dir` field equals `/var/cache/apt/archives` when it was empty
after decode and is unchanged otherwise (all other fields unchanged). -/
theorem C3_prepare_cache_dir_default (c : Config) :
    Config.Prepare (Except.ok c) =
      Except.ok { c with
        cacheDir := if c.cacheDir = "" then defaultCacheDir else c.cacheDir } := by
  by_cases h : c.cacheDir = "" <;> simp [Config.Prepare, prepareFill, h]

/-! ## C4 — content of the uploaded source list -/

/-- C4: for a non-empty `sources` sequence, the content uploaded to
`/etc/apt/sources.list.d/packer.list` is the elements joined by newline
followed by exactly one trailing newline. -/
theorem C4_source_list_content (w : World) (cfg : Config) (h : cfg.sources ≠ []) :
    (uploadPackageList w cfg).2 =
      [Event.uploadContent packerListPath (String.intercalate "\n" cfg.sources ++ "\n")] :=
  rfl

/-- C4 witness: the spec's scenario — one source line uploads as exactly
that line plus one newline. -/
theorem C4_source_list_content_witness :
    (uploadPackageList allOkWorld cfgB).2 =
      [Event.uploadContent packerListPath
        "deb http://deb.debian.org/debian bullseye main\n"] :=
  (C4_source_list_content allOkWorld cfgB (by decide)).trans (by decide)

/-! ## C7 — the install command -/

/-- C7: the install step issues exactly one remote command, the fixed
prefix `DEBIAN_FRONTEND=noninteractive /usr/bin/apt-get install -y
--no-install-recommends ` followed by the packages joined by single spaces
in input order; an empty `packages` list still issues the command (the
statement has no non-emptiness hypothesis). -/
theorem C7_install_command (w : World) (cfg : Config) :
    (installRemotePackages w cfg).2 =
      [Event.runCmd (installPrefix ++ String.intercalate " " cfg.packages)] :=
  rfl

/-! ## C8 — absent local cache directory skips steps 1 and 7 -/

/-- C8: when the local `cache_dir` does not exist, the cache-upload step
and the cache-merge-back step each log one informational message and
return success, performing no upload, download or move (their traces are
exactly one `say`). -/
theorem C8_cache_dir_absent_skips (w : World) (cfg : Config)
    (h1 : w.statCacheUpload = StatRes.notExist)
    (h2 : w.statCacheUpdate = StatRes.notExist) :
    uploadHostPackageCache w cfg =
      (none, [Event.say "Host APT package cache not found, likely not running on a debian based host. Proceeding regardless"]) ∧
    updateCache w cfg =
      (none, [Event.say "Skipping updating package cache, likely not running on a debian based host."]) := by
  constructor
  · simp [uploadHostPackageCache, h1]
  · simp [updateCache, h2]

/-- C8 witness at the concrete all-success run with an absent cache dir. -/
theorem C8_cache_dir_absent_skips_witness :
    uploadHostPackageCache allOkWorld cfgA =
      (none, [Event.say "Host APT package cache not found, likely not running on a debian based host. Proceeding regardless"]) ∧
    updateCache allOkWorld cfgA =
      (none, [Event.say "Skipping updating package cache, likely not running on a debian based host."]) :=
  C8_cache_dir_absent_skips allOkWorld cfgA rfl rfl

/-! ## C9 — the temporary directory is removed on every exit path -/

/-- C9: whenever the cache-merge-back step creates the temporary
directory, its trace also contains the removal of that directory — on the
download-failure path, the move-failure path and the success path alike. -/
theorem C9_tempdir_removed (w : World) (cfg : Config) (dir : String)
    (h : Event.tempDirCreate dir ∈ (updateCache w cfg).2) :
    Event.removeAll dir ∈ (updateCache w cfg).2 := by
  cases hstat : w.statCacheUpdate with
  | notExist => simp [updateCache, hstat] at h
  | statError e => simp [updateCache, hstat] at h
  | ok isDir =>
      cases htd : w.tempDirRes with
      | error e => simp [updateCache, hstat, htd] at h
      | ok d =>
          cases hdl : w.downloadDirRes with
          | some e =>
              simp [updateCache, hstat, htd, hdl] at h ⊢
              exact h
          | none =>
              cases hmv : w.mvRes with
              | some e =>
                  simp [updateCache, hstat, htd, hdl, hmv] at h ⊢
                  exact h
              | none =>
                  simp [updateCache, hstat, htd, hdl, hmv] at h ⊢
                  exact h

/-- The C9 witness run: the cache directory exists, so the merge-back step
actually runs and creates the temporary directory. -/
def wMerge : World := { allOkWorld with statCacheUpload := .ok true, statCacheUpdate := .ok true }

/-- C9 witness: in the concrete merge-back run the created temporary
directory is removed. -/
theorem C9_tempdir_removed_witness :
    Event.removeAll "/tmp/archives-123456" ∈ (updateCache wMerge cfgA).2 :=
  C9_tempdir_removed wMerge cfgA "/tmp/archives-123456" (by decide)

/-! ## C10 — `cache_dir` present but not a directory -/

/-- C10: when the local `cache_dir` exists but is not a directory, the
cache-upload step performs nothing at all (empty trace) and returns
success, so `Provision` proceeds to the next step. -/
theorem C10_cache_not_dir_skips (w : World) (cfg : Config)
    (h : w.statCacheUpload = StatRes.ok false) :
    uploadHostPackageCache w cfg = (none, []) := by
  simp [uploadHostPackageCache, h]

/-- The C10 witness run: `cache_dir` is a plain file. -/
def wNotDir : World := { allOkWorld with statCacheUpload := .ok false }

/-- C10 witness: at the concrete run the step uploads nothing and
succeeds. -/
theorem C10_cache_not_dir_skips_witness :
    uploadHostPackageCache wNotDir cfgA = (none, []) :=
  C10_cache_not_dir_skips wNotDir cfgA rfl

/-! ## C6 — the trust-key upload loop -/

/-- A key path the loop tolerates: `os.Open` or `File.Stat` reports
`IsNotExist` (the file is missing). -/
def keyMissing (w : World) (k : String) : Prop :=
  w.openKey k = FileRes.notExist ∨
    (w.openKey k = FileRes.ok ∧ w.statKey k = FileRes.notExist)

/-- A key path whose open, stat and upload all succeed. -/
def keyGood (w : World) (k : String) : Prop :=
  w.openKey k = FileRes.ok ∧ w.statKey k = FileRes.ok ∧ w.uploadKeyRes k = none

instance (w : World) (k : String) : Decidable (keyMissing w k) := by
  unfold keyMissing; infer_instance

instance (w : World) (k : String) : Decidable (keyGood w k) := by
  unfold keyGood; infer_instance

/-- The trace one benign key contributes: a single informational skip
message when the file is missing, a single upload to
`/etc/apt/trusted.gpg.d/<basename>` otherwise. -/
def keyExpectedEvents (w : World) (k : String) : List Event :=
  match w.openKey k with
  | .notExist => [Event.say (trustSkipMsg k)]
  | _ =>
      match w.statKey k with
      | .notExist => [Event.say (trustSkipMsg k)]
      | _ => [Event.uploadFile (trustPath k) k]

theorem processKey_benign (w : World) (k : String)
    (h : keyMissing w k ∨ keyGood w k) :
    processKey w k = (none, keyExpectedEvents w k) := by
  rcases h with h | ⟨h1, h2, h3⟩
  · rcases h with h | ⟨h1, h2⟩
    · simp [processKey, keyExpectedEvents, h]
    · simp [processKey, keyExpectedEvents, h1, h2]
  · simp [processKey, keyExpectedEvents, h1, h2, h3]

theorem trust_fold_benign (w : World) (keys : List String)
    (h : ∀ k ∈ keys, keyMissing w k ∨ keyGood w k) :
    uploadHostPackageTrust w keys = (none, keys.flatMap (keyExpectedEvents w)) := by
  induction keys with
  | nil => rfl
  | cons k rest ih =>
      have hk := processKey_benign w k (h k (by simp))
      have hr := ih (fun j hj => h j (by simp [hj]))
      simp [uploadHostPackageTrust, hk, hr]

theorem trust_fold_err (w : World) (pre : List String) :
    ∀ (k : String) (rest : List String) (e : String),
    (∀ j ∈ pre, keyMissing w j ∨ keyGood w j) →
    (processKey w k).1 = some e →
    (uploadHostPackageTrust w (pre ++ k :: rest)).1 = some e := by
  induction pre with
  | nil =>
      intro k rest e _ hk
      rcases hpk : processKey w k with ⟨r, evs⟩
      rw [hpk] at hk
      simp only at hk
      subst hk
      simp [uploadHostPackageTrust, hpk]
  | cons p pre' ih =>
      intro k rest e hb hk
      have hp := processKey_benign w p (hb p (by simp))
      have htail := ih k rest e (fun j hj => hb j (by simp [hj])) hk
      rcases h2 : uploadHostPackageTrust w (pre' ++ k :: rest) with ⟨r2, evs2⟩
      rw [h2] at htail
      simp only at htail
      subst htail
      simp [uploadHostPackageTrust, hp, h2]

/-- C6: the trust-key step visits `keys` in order.  First conjunct: when
every key is either missing (tolerated) or fully uploadable, the step
succeeds and its trace is exactly, in input order, one skip message per
missing key and one upload of `/etc/apt/trusted.gpg.d/<basename of k>`
per existing key `k` — so a missing file contributes no upload and no
error.  Second conjunct: the first key that hits any other filesystem or
upload error aborts the step with exactly that error. -/
theorem C6_trust_keys (w : World) (keys : List String) :
    ((∀ k ∈ keys, keyMissing w k ∨ keyGood w k) →
        uploadHostPackageTrust w keys = (none, keys.flatMap (keyExpectedEvents w))) ∧
    (∀ (pre : List String) (k : String) (rest : List String) (e : String),
        keys = pre ++ k :: rest →
        (∀ j ∈ pre, keyMissing w j ∨ keyGood w j) →
        (processKey w k).1 = some e →
        (uploadHostPackageTrust w keys).1 = some e) :=
  ⟨fun h => trust_fold_benign w keys h,
   fun pre k rest e hsplit hb hk => by
      subst hsplit; exact trust_fold_err w pre k rest e hb hk⟩

/-- The C6 witness run: of three keys the second is missing, the others
upload fine. -/
def wKeys : World :=
  { allOkWorld with openKey := fun k => if k = "/tmp/missing.gpg" then .notExist else .ok }

/-- The C6 witness configuration: three keys, the second missing. -/
def cfgKeys : Config :=
  { packages := [], sources := [],
    keys := ["/tmp/a.gpg", "/tmp/missing.gpg", "/etc/keys/b.asc"],
    cacheDir := "/var/cache/apt/archives" }

/-- C6 witness: the three keys produce, in order, an upload of `a.gpg`, a
skip message for the missing key, and an upload of `b.asc`, with no
error. -/
theorem C6_trust_keys_witness :
    uploadHostPackageTrust wKeys cfgKeys.keys =
      (none, [Event.uploadFile "/etc/apt/trusted.gpg.d/a.gpg" "/tmp/a.gpg",
              Event.say (trustSkipMsg "/tmp/missing.gpg"),
              Event.uploadFile "/etc/apt/trusted.gpg.d/b.asc" "/etc/keys/b.asc"]) :=
  ((C6_trust_keys wKeys cfgKeys.keys).1 (by decide)).trans (by decide)

/-! ## C5 — `sources` gates the list upload and the index refresh -/

/-- A trace containing neither a source-list upload nor the
`apt-get update` command. -/
def noSourcesOps (l : List Event) : Prop :=
  ∀ ev ∈ l, (∀ p c, ev ≠ Event.uploadContent p c) ∧
    ev ≠ Event.runCmd "/usr/bin/apt-get update"

theorem opStep_updateCmd : opStep (Event.runCmd "/usr/bin/apt-get update") = some 5 := by
  decide

theorem noSourcesOps_of_step (l : List Event) (m : Nat)
    (hstep : ∀ ev ∈ l, ∀ k, opStep ev = some k → k = m)
    (h4 : m ≠ 4) (h5 : m ≠ 5) : noSourcesOps l := by
  intro ev hev
  refine ⟨fun p c hne => ?_, fun hne => ?_⟩
  · subst hne
    exact h4 (hstep _ hev 4 rfl).symm
  · subst hne
    exact h5 (hstep _ hev 5 opStep_updateCmd).symm

theorem noSourcesOps_append {a b : List Event}
    (ha : noSourcesOps a) (hb : noSourcesOps b) : noSourcesOps (a ++ b) := by
  intro ev hev
  rcases List.mem_append.1 hev with h | h
  · exact ha ev h
  · exact hb ev h

theorem noSourcesOps_say (m : String) : noSourcesOps [Event.say m] := by
  intro ev hev
  simp only [List.mem_singleton] at hev
  subst hev
  exact ⟨fun p c h => Event.noConfusion h, fun h => Event.noConfusion h⟩

theorem noSourcesOps_uiError (m : String) : noSourcesOps [Event.uiError m] := by
  intro ev hev
  simp only [List.mem_singleton] at hev
  subst hev
  exact ⟨fun p c h => Event.noConfusion h, fun h => Event.noConfusion h⟩

theorem noSourcesOps_dns : noSourcesOps [Event.runCmd dnsCmdStr] := by
  intro ev hev
  simp only [List.mem_singleton] at hev
  subst hev
  refine ⟨fun p c h => Event.noConfusion h, fun h => ?_⟩
  injection h with h2
  exact absurd h2 (by decide)

theorem noSourcesOps_clean : noSourcesOps [Event.runCmd "/usr/bin/apt-get clean"] := by
  intro ev hev
  simp only [List.mem_singleton] at hev
  subst hev
  refine ⟨fun p c h => Event.noConfusion h, fun h => ?_⟩
  injection h with h2
  exact absurd h2 (by decide)

theorem noSourcesOps_install (packages : List String) :
    noSourcesOps [Event.runCmd (installCmd packages)] := by
  intro ev hev
  simp only [List.mem_singleton] at hev
  subst hev
  refine ⟨fun p c h => Event.noConfusion h, fun h => ?_⟩
  injection h with h2
  exact installCmd_ne_update _ h2

theorem noSourcesOps_cache (w : World) (cfg : Config) :
    noSourcesOps (uploadHostPackageCache w cfg).2 :=
  noSourcesOps_of_step _ 1 (opStep_cache w cfg) (by decide) (by decide)

theorem noSourcesOps_trust (w : World) (keys : List String) :
    noSourcesOps (uploadHostPackageTrust w keys).2 :=
  noSourcesOps_of_step _ 2 (opStep_trust w keys) (by decide) (by decide)

theorem noSourcesOps_updateCache (w : World) (cfg : Config) :
    noSourcesOps (updateCache w cfg).2 :=
  noSourcesOps_of_step _ 7 (opStep_updateCache w cfg) (by decide) (by decide)

theorem noSourcesOps_installOnward (w : World) (cfg : Config) (acc : List Event)
    (hacc : noSourcesOps acc) :
    noSourcesOps (provisionInstallOnward w cfg acc).2 := by
  have hup := noSourcesOps_updateCache w cfg
  cases h6 : w.installRes with
  | some e =>
      simp only [provisionInstallOnward, installRemotePackages, h6]
      exact noSourcesOps_append (noSourcesOps_append hacc (noSourcesOps_install _))
        (noSourcesOps_uiError _)
  | none =>
      rcases hU : updateCache w cfg with ⟨r7, evs7⟩
      rw [hU] at hup
      cases r7 with
      | some e =>
          simp only [provisionInstallOnward, installRemotePackages, h6, hU]
          exact noSourcesOps_append
            (noSourcesOps_append hacc (noSourcesOps_install _)) hup
      | none =>
          cases h8 : w.cleanRes with
          | some e =>
              simp only [provisionInstallOnward, installRemotePackages, h6, hU,
                cleanRemotePackages, h8]
              exact noSourcesOps_append (noSourcesOps_append (noSourcesOps_append
                (noSourcesOps_append hacc (noSourcesOps_install _)) hup)
                noSourcesOps_clean) (noSourcesOps_uiError _)
          | none =>
              simp only [provisionInstallOnward, installRemotePackages, h6, hU,
                cleanRemotePackages, h8]
              exact noSourcesOps_append (noSourcesOps_append
                (noSourcesOps_append hacc (noSourcesOps_install _)) hup)
                noSourcesOps_clean

theorem provision_noSources (w : World) (cfg : Config) (h : cfg.sources = []) :
    noSourcesOps (Provision w cfg).2 := by
  have hmt : cfg.sources.isEmpty = true := by simp [h]
  have h0 : noSourcesOps [Event.say "Provisioning with APT..."] := noSourcesOps_say _
  have hc := noSourcesOps_cache w cfg
  rcases hC : uploadHostPackageCache w cfg with ⟨r1, evs1⟩
  rw [hC] at hc
  cases r1 with
  | some e =>
      simp only [Provision, hC]
      exact noSourcesOps_append (noSourcesOps_append h0 hc) (noSourcesOps_uiError _)
  | none =>
      have ht := noSourcesOps_trust w cfg.keys
      rcases hT : uploadHostPackageTrust w cfg.keys with ⟨r2, evs2⟩
      rw [hT] at ht
      cases r2 with
      | some e =>
          simp only [Provision, hC, hT]
          exact noSourcesOps_append (noSourcesOps_append h0 hc) ht
      | none =>
          cases hD : w.dnsRes with
          | some e =>
              simp only [Provision, hC, hT, testRemoteDNS, hD]
              exact noSourcesOps_append (noSourcesOps_append (noSourcesOps_append
                (noSourcesOps_append h0 hc) ht) noSourcesOps_dns)
                (noSourcesOps_uiError _)
          | none =>
              simp only [Provision, hC, hT, testRemoteDNS, hD, hmt, if_true]
              exact noSourcesOps_installOnward w cfg _
                (noSourcesOps_append (noSourcesOps_append
                  (noSourcesOps_append h0 hc) ht) noSourcesOps_dns)

/-- The install-command event cannot occur in a chunk attributed to a step
other than 6. -/
theorem installEv_notin_of_step (l : List Event) (m : Nat) (hm : m ≠ 6)
    (hstep : ∀ ev ∈ l, ∀ k, opStep ev = some k → k = m) (packages : List String) :
    Event.runCmd (installCmd packages) ∉ l := by
  intro hmem
  exact hm (hstep _ hmem 6 (opStep_installCmd packages)).symm

theorem notin_append {x : Event} {a b : List Event} (ha : x ∉ a) (hb : x ∉ b) :
    x ∉ a ++ b := by
  intro h
  rcases List.mem_append.1 h with h | h
  · exact ha h
  · exact hb h

theorem notin_singleton {x y : Event} (h : x ≠ y) : x ∉ [y] := by
  intro hm
  exact h (List.mem_singleton.1 hm)

theorem installEv_ne_say (packages : List String) (m : String) :
    Event.runCmd (installCmd packages) ≠ Event.say m := fun h => Event.noConfusion h

theorem installEv_ne_uiError (packages : List String) (m : String) :
    Event.runCmd (installCmd packages) ≠ Event.uiError m := fun h => Event.noConfusion h

theorem installEv_ne_uploadContent (packages : List String) (p c : String) :
    Event.runCmd (installCmd packages) ≠ Event.uploadContent p c :=
  fun h => Event.noConfusion h

theorem installEv_ne_dnsEv (packages : List String) :
    Event.runCmd (installCmd packages) ≠ Event.runCmd dnsCmdStr := by
  intro h
  injection h with h2
  exact installCmd_ne_dns _ h2

theorem installEv_ne_updateEv (packages : List String) :
    Event.runCmd (installCmd packages) ≠ Event.runCmd "/usr/bin/apt-get update" := by
  intro h
  injection h with h2
  exact installCmd_ne_update _ h2

/-- Whatever happens from step 6 on, the trace extends `acc` with the
install command first. -/
theorem installOnward_trace (w : World) (cfg : Config) (acc : List Event) :
    ∃ rest, (provisionInstallOnward w cfg acc).2 =
      acc ++ Event.runCmd (installCmd cfg.packages) :: rest := by
  cases h6 : w.installRes with
  | some e =>
      refine ⟨[Event.uiError "apt-get install failed."], ?_⟩
      simp [provisionInstallOnward, installRemotePackages, h6]
  | none =>
      rcases hU : updateCache w cfg with ⟨r7, evs7⟩
      cases r7 with
      | some e =>
          refine ⟨evs7, ?_⟩
          simp [provisionInstallOnward, installRemotePackages, h6, hU]
      | none =>
          cases h8 : w.cleanRes with
          | some e =>
              refine ⟨evs7 ++ [Event.runCmd "/usr/bin/apt-get clean",
                Event.uiError "apt-get clean failed, ignoring"], ?_⟩
              simp [provisionInstallOnward, installRemotePackages, h6, hU,
                cleanRemotePackages, h8]
          | none =>
              refine ⟨evs7 ++ [Event.runCmd "/usr/bin/apt-get clean"], ?_⟩
              simp [provisionInstallOnward, installRemotePackages, h6, hU,
                cleanRemotePackages, h8]

/-- C5: first conjunct — with an empty `sources` sequence no run uploads
any source-list content and no run issues the `apt-get update` command.
Second conjunct — with a non-empty `sources` sequence, any run that issues
the install command contains, in order before it, the upload of the joined
source list and the `apt-get update` command. -/
theorem C5_sources_gating (w : World) (cfg : Config) :
    (cfg.sources = [] →
        (∀ p c, Event.uploadContent p c ∉ (Provision w cfg).2) ∧
        Event.runCmd "/usr/bin/apt-get update" ∉ (Provision w cfg).2) ∧
    (cfg.sources ≠ [] →
        Event.runCmd (installCmd cfg.packages) ∈ (Provision w cfg).2 →
        List.Sublist
          [Event.uploadContent packerListPath (String.intercalate "\n" cfg.sources ++ "\n"),
           Event.runCmd "/usr/bin/apt-get update",
           Event.runCmd (installCmd cfg.packages)]
          (Provision w cfg).2) := by
  constructor
  · intro h
    have hfree := provision_noSources w cfg h
    exact ⟨fun p c hmem => (hfree _ hmem).1 p c rfl, fun hmem => (hfree _ hmem).2 rfl⟩
  · intro hs hmem
    have hmt : cfg.sources.isEmpty = false := by
      cases hcs : cfg.sources with
      | nil => exact absurd hcs hs
      | cons a l => simp [hcs]
    rcases hC : uploadHostPackageCache w cfg with ⟨r1, evs1⟩
    have hc1 : ∀ ev ∈ evs1, ∀ k, opStep ev = some k → k = 1 := by
      have h0 := opStep_cache w cfg
      rw [hC] at h0
      exact h0
    cases r1 with
    | some e =>
        refine absurd hmem ?_
        simp only [Provision, hC]
        exact notin_append (notin_append (notin_singleton (installEv_ne_say _ _))
          (installEv_notin_of_step evs1 1 (by decide) hc1 _))
          (notin_singleton (installEv_ne_uiError _ _))
    | none =>
        rcases hT : uploadHostPackageTrust w cfg.keys with ⟨r2, evs2⟩
        have hc2 : ∀ ev ∈ evs2, ∀ k, opStep ev = some k → k = 2 := by
          have h0 := opStep_trust w cfg.keys
          rw [hT] at h0
          exact h0
        cases r2 with
        | some e =>
            refine absurd hmem ?_
            simp only [Provision, hC, hT]
            exact notin_append (notin_append (notin_singleton (installEv_ne_say _ _))
              (installEv_notin_of_step evs1 1 (by decide) hc1 _))
              (installEv_notin_of_step evs2 2 (by decide) hc2 _)
        | none =>
            cases hD : w.dnsRes with
            | some e =>
                refine absurd hmem ?_
                simp only [Provision, hC, hT, testRemoteDNS, hD]
                exact notin_append (notin_append (notin_append (notin_append
                  (notin_singleton (installEv_ne_say _ _))
                  (installEv_notin_of_step evs1 1 (by decide) hc1 _))
                  (installEv_notin_of_step evs2 2 (by decide) hc2 _))
                  (notin_singleton (installEv_ne_dnsEv _)))
                  (notin_singleton (installEv_ne_uiError _ _))
            | none =>
                cases hL : w.uploadListRes with
                | some e =>
                    refine absurd hmem ?_
                    simp only [Provision, hC, hT, testRemoteDNS, hD, hmt,
                      Bool.false_eq_true, if_false, uploadPackageList, hL]
                    exact notin_append (notin_append (notin_append (notin_append
                      (notin_append (notin_singleton (installEv_ne_say _ _))
                      (installEv_notin_of_step evs1 1 (by decide) hc1 _))
                      (installEv_notin_of_step evs2 2 (by decide) hc2 _))
                      (notin_singleton (installEv_ne_dnsEv _)))
                      (notin_singleton (installEv_ne_uploadContent _ _ _)))
                      (notin_singleton (installEv_ne_uiError _ _))
                | none =>
                    cases hX : w.updateIndexRes with
                    | some e =>
                        refine absurd hmem ?_
                        simp only [Provision, hC, hT, testRemoteDNS, hD, hmt,
                          Bool.false_eq_true, if_false, uploadPackageList, hL,
                          updateRemotePackageIndex, hX]
                        exact notin_append (notin_append (notin_append (notin_append
                          (notin_append (notin_append
                          (notin_singleton (installEv_ne_say _ _))
                          (installEv_notin_of_step evs1 1 (by decide) hc1 _))
                          (installEv_notin_of_step evs2 2 (by decide) hc2 _))
                          (notin_singleton (installEv_ne_dnsEv _)))
                          (notin_singleton (installEv_ne_uploadContent _ _ _)))
                          (notin_singleton (installEv_ne_updateEv _)))
                          (notin_singleton (installEv_ne_uiError _ _))
                    | none =>
                        rcases installOnward_trace w cfg
                          ([Event.say "Provisioning with APT..."] ++ evs1 ++ evs2 ++
                            [Event.runCmd dnsCmdStr] ++
                            [Event.uploadContent packerListPath
                              (String.intercalate "\n" cfg.sources ++ "\n")] ++
                            [Event.runCmd "/usr/bin/apt-get update"]) with ⟨rest, hrest⟩
                        have htr : (Provision w cfg).2 =
                            ([Event.say "Provisioning with APT..."] ++ evs1 ++ evs2 ++
                              [Event.runCmd dnsCmdStr]) ++
                            (Event.uploadContent packerListPath
                                (String.intercalate "\n" cfg.sources ++ "\n") ::
                              Event.runCmd "/usr/bin/apt-get update" ::
                              Event.runCmd (installCmd cfg.packages) :: rest) := by
                          rw [Provision, hC, hT]
                          simp only [testRemoteDNS, hD, hmt, Bool.false_eq_true, if_false,
                            uploadPackageList, hL, updateRemotePackageIndex, hX]
                          rw [hrest]
                          simp [List.append_assoc]
                        rw [htr]
                        exact ((((List.nil_sublist rest).cons₂ _).cons₂ _).cons₂ _).trans
                          (List.sublist_append_right _ _)

/-! ## C2 — short-circuit on the first failure -/

/-- Every operation event of `l` belongs to a step of index at most `i`. -/
def opsLe (i : Nat) (l : List Event) : Prop :=
  ∀ ev ∈ l, ∀ k, opStep ev = some k → k ≤ i

theorem opsLe_append {i : Nat} {a b : List Event}
    (ha : opsLe i a) (hb : opsLe i b) : opsLe i (a ++ b) := by
  intro ev hev
  rcases List.mem_append.1 hev with h | h
  · exact ha ev h
  · exact hb ev h

theorem opsLe_of_step {m i : Nat} (l : List Event)
    (hstep : ∀ ev ∈ l, ∀ k, opStep ev = some k → k = m) (h : m ≤ i) : opsLe i l := by
  intro ev hev k hk
  rw [hstep ev hev k hk]
  exact h

theorem opsLe_say (i : Nat) (m : String) : opsLe i [Event.say m] := by
  intro ev hev k hk
  rw [List.mem_singleton.1 hev] at hk
  simp [opStep] at hk

theorem opsLe_uiError (i : Nat) (m : String) : opsLe i [Event.uiError m] := by
  intro ev hev k hk
  rw [List.mem_singleton.1 hev] at hk
  simp [opStep] at hk

theorem opsLe_dns {i : Nat} (h : 3 ≤ i) : opsLe i [Event.runCmd dnsCmdStr] := by
  intro ev hev k hk
  rw [List.mem_singleton.1 hev] at hk
  have h3 : opStep (Event.runCmd dnsCmdStr) = some 3 := by decide
  rw [h3] at hk
  cases hk
  exact h

theorem opsLe_uploadContent {i : Nat} (h : 4 ≤ i) (p c : String) :
    opsLe i [Event.uploadContent p c] := by
  intro ev hev k hk
  rw [List.mem_singleton.1 hev] at hk
  cases hk
  exact h

theorem opsLe_updateCmd {i : Nat} (h : 5 ≤ i) :
    opsLe i [Event.runCmd "/usr/bin/apt-get update"] := by
  intro ev hev k hk
  rw [List.mem_singleton.1 hev] at hk
  rw [opStep_updateCmd] at hk
  cases hk
  exact h

theorem opsLe_install {i : Nat} (h : 6 ≤ i) (packages : List String) :
    opsLe i [Event.runCmd (installCmd packages)] := by
  intro ev hev k hk
  rw [List.mem_singleton.1 hev] at hk
  rw [opStep_installCmd] at hk
  cases hk
  exact h

/-- C2: when the first failing step of a run is a step `i` other than the
final cleanup (`1 ≤ i ≤ 7`, every earlier step returning no error),
`Provision` returns exactly that step's error, and every operation event
of the whole run's trace belongs to a step of index at most `i` — no
upload, download or remote command of any later step is issued. -/
theorem C2_short_circuit (w : World) (cfg : Config) (i : Nat) (e : String)
    (hlo : 1 ≤ i) (hhi : i ≤ 7)
    (hpre : ∀ j, 1 ≤ j → j < i → stepResult w cfg j = none)
    (hfail : stepResult w cfg i = some e) :
    (Provision w cfg).1 = some e ∧
    ∀ ev ∈ (Provision w cfg).2, ∀ k, opStep ev = some k → k ≤ i := by
  rcases hC : uploadHostPackageCache w cfg with ⟨r1, evs1⟩
  have hc1 : ∀ ev ∈ evs1, ∀ k, opStep ev = some k → k = 1 := by
    have h0 := opStep_cache w cfg
    rw [hC] at h0
    exact h0
  rcases hT : uploadHostPackageTrust w cfg.keys with ⟨r2, evs2⟩
  have hc2 : ∀ ev ∈ evs2, ∀ k, opStep ev = some k → k = 2 := by
    have h0 := opStep_trust w cfg.keys
    rw [hT] at h0
    exact h0
  interval_cases i
  -- i = 1
  · simp only [stepResult, if_pos] at hfail
    rw [hC] at hfail
    have hr1 : r1 = some e := hfail
    subst hr1
    refine ⟨by simp [Provision, hC], ?_⟩
    have : opsLe 1 ([Event.say "Provisioning with APT..."] ++ evs1 ++
        [Event.uiError ("Failed to upload APT cache from " ++ cfg.cacheDir)]) :=
      opsLe_append (opsLe_append (opsLe_say 1 _) (opsLe_of_step evs1 hc1 le_rfl))
        (opsLe_uiError 1 _)
    intro ev hev
    refine this ev ?_
    rw [Provision, hC] at hev
    exact hev
  -- i = 2
  · have hr1 : r1 = none := by
      have h0 := hpre 1 (by norm_num) (by norm_num)
      simp only [stepResult, if_pos] at h0
      rw [hC] at h0
      exact h0
    subst hr1
    have hr2 : r2 = some e := by
      simp only [stepResult] at hfail
      norm_num at hfail
      rw [hT] at hfail
      exact hfail
    subst hr2
    refine ⟨by simp [Provision, hC, hT], ?_⟩
    have : opsLe 2 ([Event.say "Provisioning with APT..."] ++ evs1 ++ evs2) :=
      opsLe_append (opsLe_append (opsLe_say 2 _)
        (opsLe_of_step evs1 hc1 (by norm_num))) (opsLe_of_step evs2 hc2 le_rfl)
    intro ev hev
    refine this ev ?_
    rw [Provision, hC, hT] at hev
    exact hev
  -- i = 3
  · have hr1 : r1 = none := by
      have h0 := hpre 1 (by norm_num) (by norm_num)
      simp only [stepResult, if_pos] at h0
      rw [hC] at h0
      exact h0
    subst hr1
    have hr2 : r2 = none := by
      have h0 := hpre 2 (by norm_num) (by norm_num)
      simp only [stepResult] at h0
      norm_num at h0
      rw [hT] at h0
      exact h0
    subst hr2
    have hD : w.dnsRes = some e := by
      simp only [stepResult] at hfail
      norm_num at hfail
      exact hfail
    refine ⟨by simp [Provision, hC, hT, testRemoteDNS, hD], ?_⟩
    have : opsLe 3 ([Event.say "Provisioning with APT..."] ++ evs1 ++ evs2 ++
        [Event.runCmd dnsCmdStr] ++
        [Event.uiError "Failed waiting for domain name resolution"]) :=
      opsLe_append (opsLe_append (opsLe_append (opsLe_append (opsLe_say 3 _)
        (opsLe_of_step evs1 hc1 (by norm_num))) (opsLe_of_step evs2 hc2 (by norm_num)))
        (opsLe_dns le_rfl)) (opsLe_uiError 3 _)
    intro ev hev
    refine this ev ?_
    rw [Provision, hC, hT] at hev
    simp only [testRemoteDNS, hD] at hev
    exact hev
  -- i = 4
  · have hr1 : r1 = none := by
      have h0 := hpre 1 (by norm_num) (by norm_num)
      simp only [stepResult, if_pos] at h0
      rw [hC] at h0
      exact h0
    subst hr1
    have hr2 : r2 = none := by
      have h0 := hpre 2 (by norm_num) (by norm_num)
      simp only [stepResult] at h0
      norm_num at h0
      rw [hT] at h0
      exact h0
    subst hr2
    have hD : w.dnsRes = none := by
      have h0 := hpre 3 (by norm_num) (by norm_num)
      simp only [stepResult] at h0
      norm_num at h0
      exact h0
    simp only [stepResult] at hfail
    norm_num at hfail
    obtain ⟨hne, hfail⟩ := hfail
    have hmt : cfg.sources.isEmpty = false := by
      cases hcs : cfg.sources with
      | nil => exact absurd hcs hne
      | cons a l => simp [hcs]
    refine ⟨by simp [Provision, hC, hT, testRemoteDNS, hD, hmt, uploadPackageList, hfail], ?_⟩
    have : opsLe 4 ([Event.say "Provisioning with APT..."] ++ evs1 ++ evs2 ++
        [Event.runCmd dnsCmdStr] ++
        [Event.uploadContent packerListPath
          (String.intercalate "\n" cfg.sources ++ "\n")] ++
        [Event.uiError "Failed to upload APT package list"]) :=
      opsLe_append (opsLe_append (opsLe_append (opsLe_append (opsLe_append
        (opsLe_say 4 _) (opsLe_of_step evs1 hc1 (by norm_num)))
        (opsLe_of_step evs2 hc2 (by norm_num))) (opsLe_dns (by norm_num)))
        (opsLe_uploadContent le_rfl _ _)) (opsLe_uiError 4 _)
    intro ev hev
    refine this ev ?_
    rw [Provision, hC, hT] at hev
    simp only [testRemoteDNS, hD, hmt, Bool.false_eq_true, if_false,
      uploadPackageList, hfail] at hev
    exact hev
  -- i = 5
  · have hr1 : r1 = none := by
      have h0 := hpre 1 (by norm_num) (by norm_num)
      simp only [stepResult, if_pos] at h0
      rw [hC] at h0
      exact h0
    subst hr1
    have hr2 : r2 = none := by
      have h0 := hpre 2 (by norm_num) (by norm_num)
      simp only [stepResult] at h0
      norm_num at h0
      rw [hT] at h0
      exact h0
    subst hr2
    have hD : w.dnsRes = none := by
      have h0 := hpre 3 (by norm_num) (by norm_num)
      simp only [stepResult] at h0
      norm_num at h0
      exact h0
    simp only [stepResult] at hfail
    norm_num at hfail
    obtain ⟨hne, hfail⟩ := hfail
    have hmt : cfg.sources.isEmpty = false := by
      cases hcs : cfg.sources with
      | nil => exact absurd hcs hne
      | cons a l => simp [hcs]
    have hL : w.uploadListRes = none := by
      have h0 := hpre 4 (by norm_num) (by norm_num)
      simp [stepResult, hmt, hne] at h0
      exact h0
    refine ⟨by simp [Provision, hC, hT, testRemoteDNS, hD, hmt, uploadPackageList,
      hL, updateRemotePackageIndex, hfail], ?_⟩
    have : opsLe 5 ([Event.say "Provisioning with APT..."] ++ evs1 ++ evs2 ++
        [Event.runCmd dnsCmdStr] ++
        [Event.uploadContent packerListPath
          (String.intercalate "\n" cfg.sources ++ "\n")] ++
        [Event.runCmd "/usr/bin/apt-get update"] ++
        [Event.uiError "apt-get update failed"]) :=
      opsLe_append (opsLe_append (opsLe_append (opsLe_append (opsLe_append
        (opsLe_append (opsLe_say 5 _) (opsLe_of_step evs1 hc1 (by norm_num)))
        (opsLe_of_step evs2 hc2 (by norm_num))) (opsLe_dns (by norm_num)))
        (opsLe_uploadContent (by norm_num) _ _)) (opsLe_updateCmd le_rfl))
        (opsLe_uiError 5 _)
    intro ev hev
    refine this ev ?_
    rw [Provision, hC, hT] at hev
    simp only [testRemoteDNS, hD, hmt, Bool.false_eq_true, if_false,
      uploadPackageList, hL, updateRemotePackageIndex, hfail] at hev
    exact hev
  -- i = 6
  · have hr1 : r1 = none := by
      have h0 := hpre 1 (by norm_num) (by norm_num)
      simp only [stepResult, if_pos] at h0
      rw [hC] at h0
      exact h0
    subst hr1
    have hr2 : r2 = none := by
      have h0 := hpre 2 (by norm_num) (by norm_num)
      simp only [stepResult] at h0
      norm_num at h0
      rw [hT] at h0
      exact h0
    subst hr2
    have hD : w.dnsRes = none := by
      have h0 := hpre 3 (by norm_num) (by norm_num)
      simp only [stepResult] at h0
      norm_num at h0
      exact h0
    have h6 : w.installRes = some e := by
      simp only [stepResult] at hfail
      norm_num at hfail
      exact hfail
    have hacc0 : opsLe 6 ([Event.say "Provisioning with APT..."] ++ evs1 ++ evs2 ++
        [Event.runCmd dnsCmdStr]) :=
      opsLe_append (opsLe_append (opsLe_append (opsLe_say 6 _)
        (opsLe_of_step evs1 hc1 (by norm_num))) (opsLe_of_step evs2 hc2 (by norm_num)))
        (opsLe_dns (by norm_num))
    cases hmt : cfg.sources.isEmpty with
    | true =>
        refine ⟨by simp [Provision, hC, hT, testRemoteDNS, hD, hmt,
          provisionInstallOnward, installRemotePackages, h6], ?_⟩
        have : opsLe 6 (([Event.say "Provisioning with APT..."] ++ evs1 ++ evs2 ++
            [Event.runCmd dnsCmdStr]) ++ [Event.runCmd (installCmd cfg.packages)] ++
            [Event.uiError "apt-get install failed."]) :=
          opsLe_append (opsLe_append hacc0 (opsLe_install le_rfl _)) (opsLe_uiError 6 _)
        intro ev hev
        refine this ev ?_
        rw [Provision, hC, hT] at hev
        simp only [testRemoteDNS, hD, hmt, if_true, provisionInstallOnward,
          installRemotePackages, h6] at hev
        exact hev
    | false =>
        have hL : w.uploadListRes = none := by
          have h0 := hpre 4 (by norm_num) (by norm_num)
          simp [stepResult, hmt] at h0
          exact h0
        have hX : w.updateIndexRes = none := by
          have h0 := hpre 5 (by norm_num) (by norm_num)
          simp [stepResult, hmt] at h0
          exact h0
        refine ⟨by simp [Provision, hC, hT, testRemoteDNS, hD, hmt, uploadPackageList,
          hL, updateRemotePackageIndex, hX, provisionInstallOnward,
          installRemotePackages, h6], ?_⟩
        have : opsLe 6 (([Event.say "Provisioning with APT..."] ++ evs1 ++ evs2 ++
            [Event.runCmd dnsCmdStr] ++
            [Event.uploadContent packerListPath
              (String.intercalate "\n" cfg.sources ++ "\n")] ++
            [Event.runCmd "/usr/bin/apt-get update"]) ++
            [Event.runCmd (installCmd cfg.packages)] ++
            [Event.uiError "apt-get install failed."]) :=
          opsLe_append (opsLe_append (opsLe_append (opsLe_append hacc0
            (opsLe_uploadContent (by norm_num) _ _)) (opsLe_updateCmd (by norm_num)))
            (opsLe_install le_rfl _)) (opsLe_uiError 6 _)
        intro ev hev
        rw [Provision, hC, hT] at hev
        simp only [testRemoteDNS, hD, hmt, Bool.false_eq_true, if_false,
          uploadPackageList, hL, updateRemotePackageIndex, hX, provisionInstallOnward,
          installRemotePackages, h6, List.append_assoc] at hev
        refine this ev ?_
        simp only [List.append_assoc]
        exact hev
  -- i = 7
  · have hr1 : r1 = none := by
      have h0 := hpre 1 (by norm_num) (by norm_num)
      simp only [stepResult, if_pos] at h0
      rw [hC] at h0
      exact h0
    subst hr1
    have hr2 : r2 = none := by
      have h0 := hpre 2 (by norm_num) (by norm_num)
      simp only [stepResult] at h0
      norm_num at h0
      rw [hT] at h0
      exact h0
    subst hr2
    have hD : w.dnsRes = none := by
      have h0 := hpre 3 (by norm_num) (by norm_num)
      simp only [stepResult] at h0
      norm_num at h0
      exact h0
    have h6 : w.installRes = none := by
      have h0 := hpre 6 (by norm_num) (by norm_num)
      simp only [stepResult] at h0
      norm_num at h0
      exact h0
    rcases hU : updateCache w cfg with ⟨r7, evs7⟩
    have hc7 : ∀ ev ∈ evs7, ∀ k, opStep ev = some k → k = 7 := by
      have h0 := opStep_updateCache w cfg
      rw [hU] at h0
      exact h0
    have hr7 : r7 = some e := by
      have h0 := hfail
      simp only [stepResult] at h0
      norm_num at h0
      rw [hU] at h0
      exact h0
    subst hr7
    have hacc0 : opsLe 7 ([Event.say "Provisioning with APT..."] ++ evs1 ++ evs2 ++
        [Event.runCmd dnsCmdStr]) :=
      opsLe_append (opsLe_append (opsLe_append (opsLe_say 7 _)
        (opsLe_of_step evs1 hc1 (by norm_num))) (opsLe_of_step evs2 hc2 (by norm_num)))
        (opsLe_dns (by norm_num))
    cases hmt : cfg.sources.isEmpty with
    | true =>
        refine ⟨by simp [Provision, hC, hT, testRemoteDNS, hD, hmt,
          provisionInstallOnward, installRemotePackages, h6, hU], ?_⟩
        have : opsLe 7 (([Event.say "Provisioning with APT..."] ++ evs1 ++ evs2 ++
            [Event.runCmd dnsCmdStr]) ++ [Event.runCmd (installCmd cfg.packages)] ++
            evs7) :=
          opsLe_append (opsLe_append hacc0 (opsLe_install (by norm_num) _))
            (opsLe_of_step evs7 hc7 le_rfl)
        intro ev hev
        refine this ev ?_
        rw [Provision, hC, hT] at hev
        simp only [testRemoteDNS, hD, hmt, if_true, provisionInstallOnward,
          installRemotePackages, h6, hU] at hev
        exact hev
    | false =>
        have hL : w.uploadListRes = none := by
          have h0 := hpre 4 (by norm_num) (by norm_num)
          simp [stepResult, hmt] at h0
          exact h0
        have hX : w.updateIndexRes = none := by
          have h0 := hpre 5 (by norm_num) (by norm_num)
          simp [stepResult, hmt] at h0
          exact h0
        refine ⟨by simp [Provision, hC, hT, testRemoteDNS, hD, hmt, uploadPackageList,
          hL, updateRemotePackageIndex, hX, provisionInstallOnward,
          installRemotePackages, h6, hU], ?_⟩
        have : opsLe 7 (([Event.say "Provisioning with APT..."] ++ evs1 ++ evs2 ++
            [Event.runCmd dnsCmdStr] ++
            [Event.uploadContent packerListPath
              (String.intercalate "\n" cfg.sources ++ "\n")] ++
            [Event.runCmd "/usr/bin/apt-get update"]) ++
            [Event.runCmd (installCmd cfg.packages)] ++ evs7) :=
          opsLe_append (opsLe_append (opsLe_append (opsLe_append hacc0
            (opsLe_uploadContent (by norm_num) _ _)) (opsLe_updateCmd (by norm_num)))
            (opsLe_install (by norm_num) _)) (opsLe_of_step evs7 hc7 le_rfl)
        intro ev hev
        rw [Provision, hC, hT] at hev
        simp only [testRemoteDNS, hD, hmt, Bool.false_eq_true, if_false,
          uploadPackageList, hL, updateRemotePackageIndex, hX, provisionInstallOnward,
          installRemotePackages, h6, hU, List.append_assoc] at hev
        refine this ev ?_
        simp only [List.append_assoc]
        exact hev

/-- The C2 witness run: the DNS-wait step (step 3) is the first failure. -/
def wDnsFail : World := { allOkWorld with dnsRes := some "resolvectl timed out" }

/-- C2 witness: with steps 1 and 2 succeeding and step 3 failing,
`Provision` returns exactly the step-3 error. -/
theorem C2_short_circuit_witness :
    (Provision wDnsFail cfgA).1 = some "resolvectl timed out" :=
  (C2_short_circuit wDnsFail cfgA 3 "resolvectl timed out" (by norm_num) (by norm_num)
    (by
      intro j h1 h2
      interval_cases j
      · decide
      · decide)
    (by decide)).1

/-- C5 witness: at the concrete all-success runs, the empty-`sources`
configuration issues no `apt-get update`, and the one-source configuration
uploads the joined list and runs `apt-get update`, in order, before the
install command. -/
theorem C5_sources_gating_witness :
    Event.runCmd "/usr/bin/apt-get update" ∉ (Provision allOkWorld cfgA).2 ∧
    List.Sublist
      [Event.uploadContent packerListPath (String.intercalate "\n" cfgB.sources ++ "\n"),
       Event.runCmd "/usr/bin/apt-get update",
       Event.runCmd (installCmd cfgB.packages)]
      (Provision allOkWorld cfgB).2 :=
  ⟨((C5_sources_gating allOkWorld cfgA).1 rfl).2,
   (C5_sources_gating allOkWorld cfgB).2 (by decide) (by decide)⟩

end Apt
